import Mathlib

/-!
# Verification of the crypto-dashboard data layer (`src/app.py`)

Shallow embedding of the single-module Streamlit dashboard.  The embedding
models:

* JSON values as delivered by `response.json()` (`Json`);
* the Python dynamic operations the module uses (`pyGetItem`, `pyLen`,
  `pyIterate`, `pyTruthy`, `pyFloat`, `pyUpper`, `pyStr`), each returning
  `Except PyErr _` where the Python operation can raise;
* the number formatter `format_big_number` (numbers are idealised as `ℚ`;
  the two-decimal rendering of `f"{x:.2f}"` is modelled by rounding to the
  nearest hundredth; `float()` applied to numeric strings is not modelled
  since upstream JSON numbers arrive as numbers);
* the three API functions `get_coins_list`, `get_coin_history`,
  `get_global_data`, each split into the body of its `try` block and the
  surrounding exception handler, with the transport layer modelled as
  `Option Response` (`none` = `requests.get` raised);
* the `main` render pass (`mainRun`), which records the requests issued and
  the render calls made as a list of `Event`s, together with the exception
  (if any) that escapes `main`.  Presentation chrome with no data content
  (sidebar text, separators, column/tab layout) is not recorded.
-/

namespace CryptoDash

/-- JSON values as produced by `response.json()`.  Objects are association
lists; lookup takes the first binding, matching Python dict semantics for
parsed JSON (which has no duplicate keys). -/
inductive Json where
  | null
  | bool (b : Bool)
  | num (q : ℚ)
  | str (s : String)
  | arr (xs : List Json)
  | obj (kvs : List (String × Json))

/-- The Python exception classes the embedded code can raise. -/
inductive PyErr where
  | keyError
  | typeError
  | valueError

/-- An HTTP response: status code plus body.  `body = none` means the body is
not valid JSON, so `response.json()` raises. -/
structure Response where
  status : Nat
  body : Option Json

/-- Python `x[key]` for a string key: dict lookup (`KeyError` when the key is
missing), `TypeError` on every non-dict value. -/
def pyGetItem (j : Json) (key : String) : Except PyErr Json :=
  match j with
  | .obj kvs =>
    match kvs.lookup key with
    | some v => Except.ok v
    | none => Except.error PyErr.keyError
  | _ => Except.error PyErr.typeError

/-- Python `len(x)`: defined on lists, dicts and strings, `TypeError`
otherwise. -/
def pyLen : Json → Except PyErr Nat
  | .arr xs => Except.ok xs.length
  | .obj kvs => Except.ok kvs.length
  | .str s => Except.ok s.length
  | _ => Except.error PyErr.typeError

/-- Python `for x in v`: lists yield their elements, dicts their keys,
strings their characters; every other value raises `TypeError`. -/
def pyIterate : Json → Except PyErr (List Json)
  | .arr xs => Except.ok xs
  | .obj kvs => Except.ok (kvs.map (fun kv => Json.str kv.1))
  | .str s => Except.ok (s.data.map (fun c => Json.str (String.mk [c])))
  | _ => Except.error PyErr.typeError

/-- Python truthiness of a JSON value. -/
def pyTruthy : Json → Bool
  | .null => false
  | .bool b => b
  | .num q => q != 0
  | .str s => s != ""
  | .arr xs => !xs.isEmpty
  | .obj kvs => !kvs.isEmpty

/-- Python `float(x)` on a JSON value.  `float()` applied to numeric strings
is not modelled (upstream JSON numbers arrive as numbers). -/
def pyFloat : Json → Except PyErr ℚ
  | .num q => Except.ok q
  | .bool b => Except.ok (if b then 1 else 0)
  | _ => Except.error PyErr.typeError

/-- Python `x.upper()`: only strings have the method. -/
def pyUpper : Json → Except PyErr String
  | .str s => Except.ok s.toUpper
  | _ => Except.error PyErr.typeError

/-- Display form of a rational for f-string interpolation. -/
def ratRepr (q : ℚ) : String :=
  if q.den = 1 then toString q.num else toString q.num ++ "/" ++ toString q.den

/-- Python `str(x)` / f-string interpolation of a JSON value (total;
containers are abbreviated since no claim inspects their rendering). -/
def pyStr : Json → String
  | .null => "None"
  | .bool b => if b then "True" else "False"
  | .num q => ratRepr q
  | .str s => s
  | .arr _ => "<list>"
  | .obj _ => "<dict>"

/-- Python `coin['name'] == selection` where `selection` is a `str`: true
exactly when the value is that string (Python `==` between a non-`str` and a
`str` is `False`, it does not raise). -/
def jsonEqStr (j : Json) (s : String) : Bool :=
  match j with
  | .str t => t == s
  | _ => false

/-! ## The number formatter (`format_big_number`, src/app.py lines 16-30) -/

/-- Two decimal digits with a leading zero, for the fractional part. -/
def twoDigitFrac (k : Nat) : String :=
  if k < 10 then "0" ++ toString k else toString k

/-- `f"{q:.2f}"`: round to the nearest hundredth and print with exactly two
decimals (no thousands grouping). -/
def fmt2 (q : ℚ) : String :=
  let n : ℤ := round (q * 100)
  let s := toString (n.natAbs / 100) ++ "." ++ twoDigitFrac (n.natAbs % 100)
  if n < 0 then "-" ++ s else s

/-- Split a (reversed) digit list into groups of three. -/
def chunk3 : List Char → List (List Char)
  | [] => []
  | a :: b :: c :: rest => [a, b, c] :: chunk3 rest
  | l => [l]

/-- Insert a comma between each group of three digits, counted from the
right, as Python's `,` format specifier does. -/
def groupDigits (s : String) : String :=
  String.mk (List.intercalate [','] (chunk3 s.data.reverse)).reverse

/-- `f"{q:,.2f}"`: two decimals plus thousands separators in the integer
part. -/
def fmtGrouped (q : ℚ) : String :=
  let n : ℤ := round (q * 100)
  let s := groupDigits (toString (n.natAbs / 100)) ++ "." ++ twoDigitFrac (n.natAbs % 100)
  if n < 0 then "-" ++ s else s

/-- `f"{q:.1f}"`: one decimal digit. -/
def fmt1 (q : ℚ) : String :=
  let n : ℤ := round (q * 10)
  let s := toString (n.natAbs / 10) ++ "." ++ toString (n.natAbs % 10)
  if n < 0 then "-" ++ s else s

/-- `format_big_number` (src/app.py lines 16-30): `None` becomes `"N/A"`,
values at or above one billion are shown in `Mrd.`, at or above one million
in `Mio.`, and below that with thousands separators, always with the euro
sign prepended. -/
def format_big_number : Option ℚ → String
  | none => "N/A"
  | some number =>
    let value := number
    if value ≥ 1000000000 then "€ " ++ fmt2 (value / 1000000000) ++ " Mrd."
    else if value ≥ 1000000 then "€ " ++ fmt2 (value / 1000000) ++ " Mio."
    else "€ " ++ fmtGrouped value

/-- `format_big_number` as `main` calls it, on a raw JSON value: the
`number is None` test, then `float(number)` (which can raise), then the
numeric branches. -/
def formatBigJson (j : Json) : Except PyErr String :=
  match j with
  | .null => Except.ok (format_big_number none)
  | _ => (pyFloat j).map (fun v => format_big_number (some v))

/-- `f"{x:.1f}"` applied to a JSON value (raises on non-numeric values). -/
def fmt1Json (j : Json) : Except PyErr String :=
  (pyFloat j).map fmt1

/-! ## The Market Data Client (src/app.py lines 35-101) -/

/-- Body of the `try` block of `get_coins_list` (lines 46-53): on status 200
return the parsed JSON body (`response.json()` raising when the body is not
JSON), otherwise print an error and return `[]`. -/
def get_coins_list_try (r : Response) : Except PyErr Json :=
  if r.status = 200 then
    match r.body with
    | some j => Except.ok j
    | none => Except.error PyErr.valueError
  else Except.ok (Json.arr [])

/-- `get_coins_list` (lines 35-56).  The argument is the transport outcome:
`none` means `requests.get` raised.  The surrounding `except` swallows every
exception and returns the empty list. -/
def get_coins_list (x : Option Response) : Json :=
  match x with
  | none => Json.arr []
  | some r =>
    match get_coins_list_try r with
    | .ok j => j
    | .error _ => Json.arr []

/-- One row of a history array: `[timestamp, value]`.  `pd.DataFrame(rows,
columns=['timestamp', v])` needs rows of width two, and
`pd.to_datetime(..., unit='ms')` needs a numeric timestamp; the value column
is kept as-is. -/
def parseRow : Json → Except PyErr (ℚ × Json)
  | .arr [.num t, v] => Except.ok (t, v)
  | _ => Except.error PyErr.valueError

/-- One history array into a time-indexed series (the DataFrame build plus
timestamp conversion, all of which raise on malformed rows). -/
def parseSeries (j : Json) : Except PyErr (List (ℚ × Json)) :=
  match j with
  | .arr rows => rows.mapM parseRow
  | _ => Except.error PyErr.valueError

/-- A time-indexed series: the embedding of one of the three DataFrames. -/
abbrev Series := List (ℚ × Json)

/-- Body of the `try` block of `get_coin_history` (lines 67-89): parse the
body, extract and convert `prices`, `market_caps` and `total_volumes` in that
order.  The HTTP status code is never inspected. -/
def get_coin_history_try (r : Response) : Except PyErr (Series × Series × Series) := do
  let data ← match r.body with
    | some j => Except.ok j
    | none => Except.error PyErr.valueError
  let pricesData ← pyGetItem data "prices"
  let dfPrices ← parseSeries pricesData
  let capsData ← pyGetItem data "market_caps"
  let dfCaps ← parseSeries capsData
  let volData ← pyGetItem data "total_volumes"
  let dfVol ← parseSeries volData
  Except.ok (dfPrices, dfCaps, dfVol)

/-- `get_coin_history` (lines 58-92): the `except` clause turns every raised
error (transport included) into the sentinel `(None, None, None)`. -/
def get_coin_history (x : Option Response) :
    Option Series × Option Series × Option Series :=
  match x with
  | none => (none, none, none)
  | some r =>
    match get_coin_history_try r with
    | .ok t => (some t.1, some t.2.1, some t.2.2)
    | .error _ => (none, none, none)

/-- Body of the `try` block of `get_global_data` (lines 97-99): on status 200
return `response.json()['data']` (either step can raise); on any other status
the function falls off its end, i.e. returns `None`. -/
def get_global_data_try (r : Response) : Except PyErr (Option Json) :=
  if r.status = 200 then
    match r.body with
    | some j => (pyGetItem j "data").map some
    | none => Except.error PyErr.valueError
  else Except.ok none

/-- `get_global_data` (lines 94-101): the bare `except` turns every raised
error into `None`. -/
def get_global_data (x : Option Response) : Option Json :=
  match x with
  | none => none
  | some r =>
    match get_global_data_try r with
    | .ok v => v
    | .error _ => none

/-! ## The View Controller (`main`, src/app.py lines 105-214) -/

/-- The observable actions of one render pass: the API functions invoked and
the data-bearing render calls made, in program order. -/
inductive Event where
  | reqMarkets
  | reqGlobal
  | reqHistory (coinId : Json) (days : Nat)
  | warn (msg : String)
  | title (s : String)
  | metric (label value : String)
  | subheader (s : String)
  | image (j : Json)
  | table
  | lineChart (s : Series)
  | barChart (s : Series)
  | areaChart (s : Series)

/-- The inputs of one render pass: the transport outcome of each endpoint the
pass may hit, plus the current widget values (`selection` from the view
dropdown, `daysOption` from the timeframe radio). -/
structure Env where
  markets : Option Response
  globalResp : Option Response
  historyResp : Option Response
  selection : String
  daysOption : String

/-- The timeframe conversion (lines 133-137): start from 7 and overwrite for
the two recognised labels. -/
def daysOfOption (s : String) : Nat :=
  let d := 7
  if s = "30 Days" then 30
  else if s = "90 Days" then 90
  else d

/-- The dropdown-population loop (lines 121-122): `coin['name']` for each
element, raising at the first element that does not support it. -/
def buildNames : List Json → Except PyErr (List Json)
  | [] => Except.ok []
  | c :: rest => do
    let n ← pyGetItem c "name"
    let ns ← buildNames rest
    Except.ok (n :: ns)

/-- The coin-lookup loop (lines 174-178): first element whose `name` equals
the selection, stopping at the match (`break`). -/
def findCoin (sel : String) : List Json → Except PyErr (Option Json)
  | [] => Except.ok none
  | c :: rest => do
    let n ← pyGetItem c "name"
    if jsonEqStr n sel then Except.ok (some c) else findCoin sel rest

/-- The columns selected for the rankings table (line 164). -/
def requiredCols : List String :=
  ["name", "symbol", "current_price", "price_change_percentage_24h", "market_cap"]

/-- Does a JSON object carry the key? -/
def hasKey (c : Json) (k : String) : Bool :=
  match c with
  | .obj kvs => (kvs.lookup k).isSome
  | _ => false

/-- Is the value a JSON object (a Python dict)? -/
def isObjJ : Json → Bool
  | .obj _ => true
  | _ => false

/-- The rankings-table build (lines 161-164): `pd.DataFrame` over a list of
dicts, then column selection, which raises `KeyError` unless every selected
column occurs in at least one row. -/
def makeTable (coins : Json) : Except PyErr Unit :=
  match coins with
  | .arr cs =>
    if cs.all isObjJ then
      if requiredCols.all (fun k => cs.any (fun c => hasKey c k)) then Except.ok ()
      else Except.error PyErr.keyError
    else Except.error PyErr.valueError
  | _ => Except.error PyErr.valueError

/-- The three key extractions of the metrics block (lines 147-149), in
program order. -/
def globalMetricsData (j : Json) : Except PyErr (Json × Json × Json) := do
  let mcapMap ← pyGetItem j "total_market_cap"
  let totalMcap ← pyGetItem mcapMap "eur"
  let volMap ← pyGetItem j "total_volume"
  let totalVol ← pyGetItem volMap "eur"
  let pctMap ← pyGetItem j "market_cap_percentage"
  let btcPct ← pyGetItem pctMap "btc"
  Except.ok (totalMcap, totalVol, btcPct)

/-- The tail of the global branch (lines 157-170): subheader, then the
rankings table (whose build can raise). -/
def globalTail (evs : List Event) (coins : Json) : List Event × Option PyErr :=
  match makeTable coins with
  | .ok _ => (evs ++ [Event.subheader "Top 100 Rankings", Event.table], none)
  | .error e => (evs ++ [Event.subheader "Top 100 Rankings"], some e)

/-- The global branch (lines 140-170): title, global-stats fetch, the metrics
block when the stats object is truthy, then the rankings table. -/
def renderGlobal (coins : Json) (gResp : Option Response) : List Event × Option PyErr :=
  let base : List Event := [Event.title "Global Crypto Market", Event.reqGlobal]
  match get_global_data gResp with
  | none => globalTail base coins
  | some j =>
    if pyTruthy j then
      match globalMetricsData j with
      | .error e => (base, some e)
      | .ok d =>
        match formatBigJson d.1 with
        | .error e => (base, some e)
        | .ok s1 =>
          let e1 := base ++ [Event.metric "Market Cap" s1]
          match formatBigJson d.2.1 with
          | .error e => (e1, some e)
          | .ok s2 =>
            let e2 := e1 ++ [Event.metric "Volume (24h)" s2]
            match fmt1Json d.2.2 with
            | .error e => (e2, some e)
            | .ok s3 => globalTail (e2 ++ [Event.metric "BTC Dominance" (s3 ++ " %")]) coins
    else globalTail base coins

/-- The found-coin detail branch (lines 181-214): identity header, image,
three point metrics, history subheader, then the history fetch and either the
three charts or the unavailability warning. -/
def renderDetail (coin : Json) (daysInt : Nat) (hResp : Option Response) :
    List Event × Option PyErr :=
  match pyGetItem coin "name" with
  | .error e => ([], some e)
  | .ok nameJ =>
  match pyGetItem coin "symbol" with
  | .error e => ([], some e)
  | .ok symJ =>
  match pyUpper symJ with
  | .error e => ([], some e)
  | .ok symU =>
  let evs1 := [Event.title (pyStr nameJ ++ " (" ++ symU ++ ")")]
  match pyGetItem coin "image" with
  | .error e => (evs1, some e)
  | .ok img =>
  let evs2 := evs1 ++ [Event.image img]
  match pyGetItem coin "current_price" with
  | .error e => (evs2, some e)
  | .ok price =>
  match pyGetItem coin "price_change_percentage_24h" with
  | .error e => (evs2, some e)
  | .ok change =>
  match pyGetItem coin "high_24h" with
  | .error e => (evs2, some e)
  | .ok high =>
  let evs3 := evs2 ++
    [Event.metric "Current Price" ("€ " ++ pyStr price),
     Event.metric "24h Change" (pyStr change ++ " %"),
     Event.metric "24h High" ("€ " ++ pyStr high),
     Event.subheader ("History (" ++ toString daysInt ++ " Days)")]
  match pyGetItem coin "id" with
  | .error e => (evs3, some e)
  | .ok cid =>
  let evs4 := evs3 ++ [Event.reqHistory cid daysInt]
  match get_coin_history hResp with
  | (some dfPrice, dfCap, dfVol) =>
    let evs5 := evs4 ++ [Event.lineChart dfPrice]
    match dfVol with
    | none => (evs5, some PyErr.typeError)
    | some vols =>
      let evs6 := evs5 ++ [Event.barChart vols]
      match dfCap with
      | none => (evs6, some PyErr.typeError)
      | some caps => (evs6 ++ [Event.areaChart caps], none)
  | (none, _, _) =>
    (evs4 ++ [Event.warn "Could not load chart data. API limit might be reached."], none)

/-- One full render pass of `main` (lines 105-214): the events emitted in
order, and the exception (if any) that escapes `main`. -/
def mainRun (env : Env) : List Event × Option PyErr :=
  let coins := get_coins_list env.markets
  match pyLen coins with
  | .error e => ([Event.reqMarkets], some e)
  | .ok n =>
    if n = 0 then
      ([Event.reqMarkets, Event.warn "Could not load data. Please refresh later."], none)
    else
      match pyIterate coins with
      | .error e => ([Event.reqMarkets], some e)
      | .ok cs =>
        match buildNames cs with
        | .error e => ([Event.reqMarkets], some e)
        | .ok _names =>
          let daysInt := daysOfOption env.daysOption
          if env.selection = "Global Overview" then
            let r := renderGlobal coins env.globalResp
            (Event.reqMarkets :: r.1, r.2)
          else
            match findCoin env.selection cs with
            | .error e => ([Event.reqMarkets], some e)
            | .ok none => ([Event.reqMarkets], none)
            | .ok (some coin) =>
              if pyTruthy coin then
                let r := renderDetail coin daysInt env.historyResp
                (Event.reqMarkets :: r.1, r.2)
              else ([Event.reqMarkets], none)

/-! ## Well-formedness predicates and concrete inputs used in the theorems -/

/-- Did the embedded Python expression produce a value (no exception)? -/
def exceptIsOk {α : Type} : Except PyErr α → Bool
  | .ok _ => true
  | .error _ => false

/-- Every element supports `coin['name']` (it is a dict carrying `name`), so
the dropdown-population and lookup loops cannot raise. -/
def namesOk (cs : List Json) : Bool :=
  cs.all (fun c => exceptIsOk (pyGetItem c "name"))

/-- The fetched list can be shown as the rankings table: every element is a
dict with a `name`, and each selected column occurs in at least one row. -/
def coinsTableOk (cs : List Json) : Bool :=
  namesOk cs && requiredCols.all (fun k => cs.any (fun c => hasKey c k))

/-- `coin['symbol']` exists and is a string (so `.upper()` works). -/
def symbolIsStr (c : Json) : Bool :=
  match pyGetItem c "symbol" with
  | .ok (.str _) => true
  | _ => false

/-- The fields the detail branch reads before its history fetch are all
present (and `symbol` is a string). -/
def coinFieldsOk (c : Json) : Bool :=
  symbolIsStr c
    && exceptIsOk (pyGetItem c "image")
    && exceptIsOk (pyGetItem c "current_price")
    && exceptIsOk (pyGetItem c "price_change_percentage_24h")
    && exceptIsOk (pyGetItem c "high_24h")
    && exceptIsOk (pyGetItem c "id")

/-- Does the coin's `name` equal the selection string?  (The predicate of the
first-match scan, as a Boolean.) -/
def nameMatches (sel : String) (c : Json) : Bool :=
  match pyGetItem c "name" with
  | .ok n => jsonEqStr n sel
  | .error _ => false

/-- The property claim C1 asserts of `get_coin_history`, stated from the
spec's words: three series of equal non-zero length with strictly increasing
timestamps, or the full failure sentinel. -/
def historyClaimC1 (x : Option Response) : Prop :=
  (∃ ps cs vs, get_coin_history x = (some ps, some cs, some vs) ∧
      ps.length = cs.length ∧ cs.length = vs.length ∧ ps.length ≠ 0 ∧
      (ps.map Prod.fst).Chain' (· < ·) ∧
      (cs.map Prod.fst).Chain' (· < ·) ∧
      (vs.map Prod.fst).Chain' (· < ·))
    ∨ get_coin_history x = (none, none, none)

/-- A fully populated coin summary, as `/coins/markets` returns it. -/
def bitcoinCoin : Json :=
  Json.obj [("id", Json.str "bitcoin"), ("name", Json.str "Bitcoin"),
    ("symbol", Json.str "btc"), ("image", Json.str "https://img.example/btc.png"),
    ("current_price", Json.num 50000), ("price_change_percentage_24h", Json.num (-2)),
    ("high_24h", Json.num 51000), ("market_cap", Json.num 900000000000)]

/-- A second coin carrying the same display name as `bitcoinCoin` but
different data, to exercise first-match resolution. -/
def bitcoinDup : Json :=
  Json.obj [("id", Json.str "bitcoin-clone"), ("name", Json.str "Bitcoin"),
    ("symbol", Json.str "btc2"), ("image", Json.str "https://img.example/btc2.png"),
    ("current_price", Json.num 49000), ("price_change_percentage_24h", Json.num 1),
    ("high_24h", Json.num 49500), ("market_cap", Json.num 800000000000)]

/-- A coin whose display name is literally the global-overview sentinel. -/
def goNamedCoin : Json :=
  Json.obj [("id", Json.str "global-overview-coin"), ("name", Json.str "Global Overview"),
    ("symbol", Json.str "gov"), ("image", Json.str "https://img.example/gov.png"),
    ("current_price", Json.num 1), ("price_change_percentage_24h", Json.num 0),
    ("high_24h", Json.num 2), ("market_cap", Json.num 1000)]

/-- One `[timestamp, value]` row of a history array. -/
def histRow (t v : ℚ) : Json :=
  Json.arr [Json.num t, Json.num v]

/-- A well-formed `market_chart` body with two samples per series. -/
def histBody : Json :=
  Json.obj [("prices", Json.arr [histRow 1000 100, histRow 2000 110]),
    ("market_caps", Json.arr [histRow 1000 5000, histRow 2000 5500]),
    ("total_volumes", Json.arr [histRow 1000 70, histRow 2000 80])]

/-- A `market_chart` body whose three arrays are present but empty: it parses,
so the function returns three empty series. -/
def emptyHistBody : Json :=
  Json.obj [("prices", Json.arr []), ("market_caps", Json.arr []),
    ("total_volumes", Json.arr [])]

/-- The response carrying `emptyHistBody`. -/
def emptyHistResp : Option Response := some ⟨200, some emptyHistBody⟩

/-- A markets response carrying exactly the one well-formed coin. -/
def goodMarketsResp : Option Response :=
  some ⟨200, some (Json.arr [bitcoinCoin])⟩

/-- A global-stats response whose `data` object is truthy but lacks the keys
the metrics block reads. -/
def malformedGlobalResp : Option Response :=
  some ⟨200, some (Json.obj [("data", Json.obj [("foo", Json.num 1)])])⟩

/-- Render-pass input for the C2 counterexample: a healthy coin list, the
global view selected, and the malformed (but truthy) global-stats object. -/
def c2Env : Env :=
  ⟨goodMarketsResp, malformedGlobalResp, none, "Global Overview", "7 Days"⟩

/-- Render-pass input whose markets fetch failed in transport. -/
def emptyMarketsEnv : Env :=
  ⟨none, none, none, "Global Overview", "7 Days"⟩

/-- Render-pass input: global view, global-stats fetch failed in transport. -/
def globalDownEnv : Env :=
  ⟨goodMarketsResp, none, none, "Global Overview", "7 Days"⟩

/-- Render-pass input: Bitcoin detail view, history fetch failed in
transport. -/
def historyDownEnv : Env :=
  ⟨goodMarketsResp, none, none, "Bitcoin", "7 Days"⟩

/-- Render-pass input: Bitcoin detail view over a 30-day window with a
well-formed history response. -/
def detail30Env : Env :=
  ⟨goodMarketsResp, none, some ⟨200, some histBody⟩, "Bitcoin", "30 Days"⟩

/-- Render-pass input: the list contains a coin named "Global Overview" and
exactly that entry is selected. -/
def goShadowEnv : Env :=
  ⟨some ⟨200, some (Json.arr [bitcoinCoin, goNamedCoin])⟩,
    some ⟨200, some (Json.obj [("data", Json.null)])⟩, none, "Global Overview", "7 Days"⟩

/-- Render-pass input: a selection matching no coin's name. -/
def noMatchEnv : Env :=
  ⟨goodMarketsResp, none, none, "Dogecoin", "7 Days"⟩

/-! ## Claim C3: the number formatter -/

/-- C3: `format_big_number` maps `None` to `"N/A"`; values at or above 1e9
are divided by 1e9 and shown with two decimals and the billion suffix
(2 500 000 000 becomes "€ 2.50 Mrd."); values in [1e6, 1e9) are divided by
1e6 with two decimals and the million suffix; values below 1e6 get thousands
separators, two decimals and no suffix (999 becomes "€ 999.00"); the currency
symbol is prepended in every numeric case. -/
theorem format_big_number_spec :
    format_big_number none = "N/A" ∧
    format_big_number (some 2500000000) = "€ 2.50 Mrd." ∧
    format_big_number (some 1200000) = "€ 1.20 Mio." ∧
    format_big_number (some 999) = "€ 999.00" ∧
    (∀ v : ℚ, 1000000000 ≤ v →
        format_big_number (some v) = "€ " ++ fmt2 (v / 1000000000) ++ " Mrd.") ∧
    (∀ v : ℚ, 1000000 ≤ v → v < 1000000000 →
        format_big_number (some v) = "€ " ++ fmt2 (v / 1000000) ++ " Mio.") ∧
    (∀ v : ℚ, v < 1000000 → format_big_number (some v) = "€ " ++ fmtGrouped v) := by
  refine ⟨rfl, ?_, ?_, ?_, ?_, ?_, ?_⟩
  · have h : round (((2500000000 : ℚ) / 1000000000) * 100) = 250 := by
      norm_num [round_eq]
    simp only [format_big_number, fmt2]
    rw [if_pos (by norm_num : (2500000000 : ℚ) ≥ 1000000000), h]
    decide
  · have h : round (((1200000 : ℚ) / 1000000) * 100) = 120 := by
      norm_num [round_eq]
    simp only [format_big_number, fmt2]
    rw [if_neg (by norm_num : ¬ (1200000 : ℚ) ≥ 1000000000),
      if_pos (by norm_num : (1200000 : ℚ) ≥ 1000000), h]
    decide
  · have h : round ((999 : ℚ) * 100) = 99900 := by norm_num [round_eq]
    simp only [format_big_number, fmtGrouped]
    rw [if_neg (by norm_num : ¬ (999 : ℚ) ≥ 1000000000),
      if_neg (by norm_num : ¬ (999 : ℚ) ≥ 1000000), h]
    decide
  · intro v hv
    simp only [format_big_number]
    rw [if_pos hv]
  · intro v hv1 hv2
    simp only [format_big_number]
    rw [if_neg (not_le.mpr hv2), if_pos hv1]
  · intro v hv
    simp only [format_big_number]
    rw [if_neg (not_le.mpr (lt_of_lt_of_le hv (by norm_num))),
      if_neg (not_le.mpr hv)]

/-- Witness for C3: the three numeric branches applied at concrete inputs. -/
theorem format_big_number_spec_witness :
    format_big_number (some 3000000000) = "€ " ++ fmt2 ((3000000000 : ℚ) / 1000000000) ++ " Mrd." ∧
    format_big_number (some 2000000) = "€ " ++ fmt2 ((2000000 : ℚ) / 1000000) ++ " Mio." ∧
    format_big_number (some 5) = "€ " ++ fmtGrouped 5 :=
  ⟨format_big_number_spec.2.2.2.2.1 3000000000 (by norm_num),
   format_big_number_spec.2.2.2.2.2.1 2000000 (by norm_num) (by norm_num),
   format_big_number_spec.2.2.2.2.2.2 5 (by norm_num)⟩

/-! ## Claim C4: `get_coins_list` failure behaviour -/

/-- C4: on a non-success HTTP status or a transport failure, `get_coins_list`
returns the empty sequence; no raised error reaches the caller (the function
is total by the surrounding `except`, as its value type shows). -/
theorem get_coins_list_failure_empty (x : Option Response)
    (h : x = none ∨ ∃ r, x = some r ∧ r.status ≠ 200) :
    get_coins_list x = Json.arr [] := by
  rcases h with rfl | ⟨r, rfl, hs⟩
  · rfl
  · simp [get_coins_list, get_coins_list_try, hs]

/-- Witness for C4 at a concrete transport failure and a concrete 404. -/
theorem get_coins_list_failure_empty_witness :
    get_coins_list none = Json.arr [] ∧
      get_coins_list (some ⟨404, some (Json.obj [("error", Json.str "rate limit")])⟩) =
        Json.arr [] := by
  constructor
  · exact get_coins_list_failure_empty none (Or.inl rfl)
  · exact get_coins_list_failure_empty _ (Or.inr ⟨_, rfl, by decide⟩)

/-! ## Claim C5: `get_global_data` sentinel behaviour -/

/-- C5: on any error — transport failure, non-success status, unparseable
body, or a body lacking the `data` key — `get_global_data` returns `None`
rather than raising; on success it returns the stats object under `data`. -/
theorem get_global_data_sentinel :
    (∀ x : Option Response,
        (x = none ∨ (∃ r, x = some r ∧ r.status ≠ 200) ∨
          (∃ r, x = some r ∧ r.body = none) ∨
          (∃ r body, x = some r ∧ r.body = some body ∧
            ∀ d, pyGetItem body "data" ≠ Except.ok d)) →
        get_global_data x = none) ∧
    (∀ (body d : Json), pyGetItem body "data" = Except.ok d →
        get_global_data (some ⟨200, some body⟩) = some d) := by
  constructor
  · intro x h
    rcases h with rfl | ⟨r, rfl, hs⟩ | ⟨r, rfl, hb⟩ | ⟨r, body, rfl, hb, hd⟩
    · rfl
    · simp [get_global_data, get_global_data_try, hs]
    · rcases r with ⟨s, b⟩
      cases hb
      by_cases hs : s = 200 <;> simp [get_global_data, get_global_data_try, hs]
    · rcases r with ⟨s, b⟩
      cases hb
      by_cases hs : s = 200
      · rcases hd2 : pyGetItem body "data" with e | d
        · simp [get_global_data, get_global_data_try, hs, hd2, Except.map]
        · exact absurd hd2 (hd d)
      · simp [get_global_data, get_global_data_try, hs]
  · intro body d hd
    simp [get_global_data, get_global_data_try, hd, Except.map]

/-- Witness for C5: a transport failure yields `None`, and a successful
200-response yields the object under `data`. -/
theorem get_global_data_sentinel_witness :
    get_global_data none = none ∧
      get_global_data (some ⟨200, some (Json.obj [("data", Json.num 7)])⟩) =
        some (Json.num 7) := by
  constructor
  · exact get_global_data_sentinel.1 none (Or.inl rfl)
  · exact get_global_data_sentinel.2 (Json.obj [("data", Json.num 7)]) (Json.num 7) rfl

/-! ## Claim C6: the timeframe mapping -/

/-- C6: the timeframe label mapping sends "7 Days" to 7, "30 Days" to 30,
"90 Days" to 90, and every other string to 7. -/
theorem daysOfOption_mapping :
    daysOfOption "7 Days" = 7 ∧ daysOfOption "30 Days" = 30 ∧
      daysOfOption "90 Days" = 90 ∧
      ∀ s, s ≠ "30 Days" → s ≠ "90 Days" → daysOfOption s = 7 := by
  refine ⟨rfl, rfl, rfl, ?_⟩
  intro s h30 h90
  simp [daysOfOption, h30, h90]

/-- Witness for C6 at a label outside the three fixed options. -/
theorem daysOfOption_mapping_witness : daysOfOption "365 Days" = 7 :=
  daysOfOption_mapping.2.2.2 "365 Days" (by decide) (by decide)

/-! ## Claims C1 and C8: `get_coin_history` -/

/-- `bind` on a successful `Except PyErr` computation. -/
theorem exceptBind_ok {α β : Type} (a : α) (f : α → Except PyErr β) :
    (Except.ok a >>= f) = f a := rfl

/-- `bind` on a failed `Except PyErr` computation. -/
theorem exceptBind_err {α β : Type} (e : PyErr) (f : α → Except PyErr β) :
    ((Except.error e : Except PyErr α) >>= f) = Except.error e := rfl

/-- Inversion: when the `try` block of `get_coin_history` succeeds, the body
was JSON and the three series are exactly the parses of its `prices`,
`market_caps` and `total_volumes` arrays. -/
theorem get_coin_history_try_ok_inv (r : Response) (t : Series × Series × Series)
    (h : get_coin_history_try r = Except.ok t) :
    ∃ body pj cj vj, r.body = some body ∧
      pyGetItem body "prices" = Except.ok pj ∧ parseSeries pj = Except.ok t.1 ∧
      pyGetItem body "market_caps" = Except.ok cj ∧ parseSeries cj = Except.ok t.2.1 ∧
      pyGetItem body "total_volumes" = Except.ok vj ∧ parseSeries vj = Except.ok t.2.2 := by
  rcases r with ⟨s, b⟩
  cases b with
  | none => simp [get_coin_history_try, exceptBind_ok, exceptBind_err] at h
  | some body =>
    rcases hp : pyGetItem body "prices" with e | pj
    · simp [get_coin_history_try, exceptBind_ok, exceptBind_err, hp] at h
    · rcases hps : parseSeries pj with e | ps
      · simp [get_coin_history_try, exceptBind_ok, exceptBind_err, hp, hps] at h
      · rcases hc : pyGetItem body "market_caps" with e | cj
        · simp [get_coin_history_try, exceptBind_ok, exceptBind_err, hp, hps, hc] at h
        · rcases hcs : parseSeries cj with e | csr
          · simp [get_coin_history_try, exceptBind_ok, exceptBind_err, hp, hps, hc, hcs] at h
          · rcases hv : pyGetItem body "total_volumes" with e | vj
            · simp [get_coin_history_try, exceptBind_ok, exceptBind_err, hp, hps, hc, hcs, hv] at h
            · rcases hvs : parseSeries vj with e | vsr
              · simp [get_coin_history_try, exceptBind_ok, exceptBind_err, hp, hps, hc, hcs, hv, hvs] at h
              · simp [get_coin_history_try, exceptBind_ok, exceptBind_err, hp, hps, hc, hcs, hv, hvs] at h
                exact ⟨body, pj, cj, vj, rfl, hp, by simp [← h, hps],
                  hc, by simp [← h, hcs], hv, by simp [← h, hvs]⟩

/-- C1 counterexample: a response whose three arrays are present but empty
parses successfully, so `get_coin_history` returns three series of length
zero — not the sentinel, and not series of non-zero length, refuting the
claim's stated disjunction. -/
theorem get_coin_history_c1_counterexample :
    get_coin_history emptyHistResp = (some [], some [], some []) ∧
      ¬ historyClaimC1 emptyHistResp := by
  have hval : get_coin_history emptyHistResp = (some [], some [], some []) := rfl
  refine ⟨hval, ?_⟩
  intro hcl
  rcases hcl with ⟨ps, cs, vs, heq, _, _, hne, _⟩ | hs
  · rw [hval] at heq
    simp only [Prod.mk.injEq, Option.some.injEq] at heq
    exact hne (by rw [← heq.1]; rfl)
  · rw [hval] at hs
    simp at hs

/-- C1 as amended: for every response, `get_coin_history` either returns all
three series together or the full sentinel `(None, None, None)` — never a
partial mix — and a returned triple is exactly the parses of the body's three
arrays, with whatever lengths and timestamp order the body provides (no
validation of equal non-zero length or increasing timestamps is performed). -/
theorem get_coin_history_all_or_nothing (x : Option Response) :
    ((∃ ps cs vs, get_coin_history x = (some ps, some cs, some vs)) ∨
      get_coin_history x = (none, none, none)) ∧
    (∀ ps cs vs, get_coin_history x = (some ps, some cs, some vs) →
      ∃ r body pj cj vj, x = some r ∧ r.body = some body ∧
        pyGetItem body "prices" = Except.ok pj ∧ parseSeries pj = Except.ok ps ∧
        pyGetItem body "market_caps" = Except.ok cj ∧ parseSeries cj = Except.ok cs ∧
        pyGetItem body "total_volumes" = Except.ok vj ∧ parseSeries vj = Except.ok vs) := by
  constructor
  · cases x with
    | none => exact Or.inr rfl
    | some r =>
      rcases ht : get_coin_history_try r with e | t
      · right; simp [get_coin_history, ht]
      · left; exact ⟨t.1, t.2.1, t.2.2, by simp [get_coin_history, ht]⟩
  · intro ps cs vs h
    cases x with
    | none => simp [get_coin_history] at h
    | some r =>
      rcases ht : get_coin_history_try r with e | t
      · simp [get_coin_history, ht] at h
      · simp [get_coin_history, ht] at h
        obtain ⟨body, pj, cj, vj, hb, h1, h2, h3, h4, h5, h6⟩ :=
          get_coin_history_try_ok_inv r t ht
        exact ⟨r, body, pj, cj, vj, rfl, hb, h1, by rw [h2, h.1], h3,
          by rw [h4, h.2.1], h5, by rw [h6, h.2.2]⟩

/-- Witness for the amended C1: the inversion applied to a concrete
successful response with two samples per series. -/
theorem get_coin_history_all_or_nothing_witness :
    ∃ r body pj cj vj, (some (⟨200, some histBody⟩ : Response) : Option Response) = some r ∧
      r.body = some body ∧
      pyGetItem body "prices" = Except.ok pj ∧
      parseSeries pj = Except.ok [(1000, Json.num 100), (2000, Json.num 110)] ∧
      pyGetItem body "market_caps" = Except.ok cj ∧
      parseSeries cj = Except.ok [(1000, Json.num 5000), (2000, Json.num 5500)] ∧
      pyGetItem body "total_volumes" = Except.ok vj ∧
      parseSeries vj = Except.ok [(1000, Json.num 70), (2000, Json.num 80)] :=
  (get_coin_history_all_or_nothing (some ⟨200, some histBody⟩)).2
    [(1000, Json.num 100), (2000, Json.num 110)]
    [(1000, Json.num 5000), (2000, Json.num 5500)]
    [(1000, Json.num 70), (2000, Json.num 80)] rfl

/-- C8: `get_coin_history` never inspects the HTTP status code — two
responses with the same body and different statuses give identical results;
a body whose three arrays are present and parseable yields the three series
whatever the status; and a body on which one of the three key lookups raises
yields the failure sentinel. -/
theorem get_coin_history_status_blind :
    (∀ (s1 s2 : Nat) (b : Option Json),
        get_coin_history (some ⟨s1, b⟩) = get_coin_history (some ⟨s2, b⟩)) ∧
    (∀ (s : Nat) (body pj cj vj : Json) (ps cs vs : Series),
        pyGetItem body "prices" = Except.ok pj → parseSeries pj = Except.ok ps →
        pyGetItem body "market_caps" = Except.ok cj → parseSeries cj = Except.ok cs →
        pyGetItem body "total_volumes" = Except.ok vj → parseSeries vj = Except.ok vs →
        get_coin_history (some ⟨s, some body⟩) = (some ps, some cs, some vs)) ∧
    (∀ (s : Nat) (body : Json) (k : String),
        (k = "prices" ∨ k = "market_caps" ∨ k = "total_volumes") →
        (∀ d, pyGetItem body k ≠ Except.ok d) →
        get_coin_history (some ⟨s, some body⟩) = (none, none, none)) := by
  refine ⟨fun s1 s2 b => rfl, ?_, ?_⟩
  · intro s body pj cj vj ps cs vs h1 h2 h3 h4 h5 h6
    simp [get_coin_history, get_coin_history_try, exceptBind_ok, exceptBind_err, h1, h2, h3, h4, h5, h6]
  · intro s body k hk hmiss
    have notOk : ∀ {j : Json}, (∀ d, pyGetItem body k ≠ Except.ok d) →
        pyGetItem body k = Except.ok j → False := fun h hj => h _ hj
    rcases hk with rfl | rfl | rfl
    · rcases hp : pyGetItem body "prices" with e | pj
      · simp [get_coin_history, get_coin_history_try, exceptBind_ok, exceptBind_err, hp]
      · exact absurd hp (hmiss pj)
    · rcases hp : pyGetItem body "prices" with e | pj
      · simp [get_coin_history, get_coin_history_try, exceptBind_ok, exceptBind_err, hp]
      · rcases hps : parseSeries pj with e | ps
        · simp [get_coin_history, get_coin_history_try, exceptBind_ok, exceptBind_err, hp, hps]
        · rcases hc : pyGetItem body "market_caps" with e | cj
          · simp [get_coin_history, get_coin_history_try, exceptBind_ok, exceptBind_err, hp, hps, hc]
          · exact absurd hc (hmiss cj)
    · rcases hp : pyGetItem body "prices" with e | pj
      · simp [get_coin_history, get_coin_history_try, exceptBind_ok, exceptBind_err, hp]
      · rcases hps : parseSeries pj with e | ps
        · simp [get_coin_history, get_coin_history_try, exceptBind_ok, exceptBind_err, hp, hps]
        · rcases hc : pyGetItem body "market_caps" with e | cj
          · simp [get_coin_history, get_coin_history_try, exceptBind_ok, exceptBind_err, hp, hps, hc]
          · rcases hcs : parseSeries cj with e | csr
            · simp [get_coin_history, get_coin_history_try, exceptBind_ok, exceptBind_err, hp, hps, hc, hcs]
            · rcases hv : pyGetItem body "total_volumes" with e | vj
              · simp [get_coin_history, get_coin_history_try, exceptBind_ok, exceptBind_err, hp, hps, hc, hcs, hv]
              · exact absurd hv (hmiss vj)

/-- Witness for C8: the same well-formed body under status 200 and status 429
returns the same three series, and a body missing `market_caps` yields the
sentinel. -/
theorem get_coin_history_status_blind_witness :
    get_coin_history (some ⟨429, some histBody⟩) =
      (some [(1000, Json.num 100), (2000, Json.num 110)],
       some [(1000, Json.num 5000), (2000, Json.num 5500)],
       some [(1000, Json.num 70), (2000, Json.num 80)]) ∧
    get_coin_history (some ⟨200, some (Json.obj [("prices", Json.arr [])])⟩) =
      (none, none, none) := by
  constructor
  · exact get_coin_history_status_blind.2.1 429 histBody _ _ _ _ _ _
      rfl rfl rfl rfl rfl rfl
  · exact get_coin_history_status_blind.2.2 200 (Json.obj [("prices", Json.arr [])])
      "market_caps" (Or.inr (Or.inl rfl)) (fun d h => by simp [pyGetItem, List.lookup] at h)

/-! ## Helper lemmas about the View Controller -/

/-- `exceptIsOk` detects exactly the successful computations. -/
theorem exceptIsOk_iff {α : Type} (x : Except PyErr α) :
    exceptIsOk x = true ↔ ∃ a, x = Except.ok a := by
  cases x <;> simp [exceptIsOk]

/-- A Boolean name-equality hit pins the value to that very string. -/
theorem jsonEqStr_true {j : Json} {s : String} (h : jsonEqStr j s = true) :
    j = Json.str s := by
  cases j <;> simp [jsonEqStr] at h
  simp [h]

/-- A value on which an item lookup succeeds is a non-empty dict, hence
truthy. -/
theorem pyGetItem_ok_truthy {c : Json} {k : String} {v : Json}
    (h : pyGetItem c k = Except.ok v) : pyTruthy c = true := by
  cases c <;> simp [pyGetItem] at h
  case obj kvs =>
    rcases hl : List.lookup k kvs with _ | w
    · simp [hl] at h
    · cases kvs with
      | nil => simp [List.lookup] at hl
      | cons p rest => simp [pyTruthy]

/-- When every element supports `coin['name']`, the dropdown-population loop
returns without raising. -/
theorem buildNames_ok (cs : List Json) (h : namesOk cs = true) :
    ∃ ns, buildNames cs = Except.ok ns := by
  induction cs with
  | nil => exact ⟨[], rfl⟩
  | cons c rest ih =>
    simp only [namesOk, List.all_cons, Bool.and_eq_true] at h
    obtain ⟨n, hn⟩ := (exceptIsOk_iff _).mp h.1
    obtain ⟨ns, hns⟩ := ih h.2
    exact ⟨n :: ns, by simp [buildNames, hn, hns, exceptBind_ok]⟩

/-- The coin-lookup loop is the first-match scan: under name availability it
computes `List.find?` of the exact-name predicate. -/
theorem findCoin_first_match (sel : String) (cs : List Json)
    (h : namesOk cs = true) :
    findCoin sel cs = Except.ok (cs.find? (nameMatches sel)) := by
  induction cs with
  | nil => rfl
  | cons c rest ih =>
    simp only [namesOk, List.all_cons, Bool.and_eq_true] at h
    obtain ⟨n, hn⟩ := (exceptIsOk_iff _).mp h.1
    by_cases hm : jsonEqStr n sel
    · simp [findCoin, hn, hm, exceptBind_ok, List.find?_cons, nameMatches]
    · simp only [findCoin, hn, exceptBind_ok, hm]
      rw [ih h.2, List.find?_cons_of_neg]
      · simp [if_neg hm]
      · simp [nameMatches, hn, hm]

/-- A hit of the lookup loop carries `name = selection` and is truthy. -/
theorem findCoin_some_props {sel : String} {cs : List Json} {c : Json}
    (h : findCoin sel cs = Except.ok (some c)) :
    pyGetItem c "name" = Except.ok (Json.str sel) ∧ pyTruthy c = true := by
  induction cs with
  | nil => simp [findCoin] at h
  | cons d rest ih =>
    rcases hd : pyGetItem d "name" with e | n
    · simp [findCoin, hd, exceptBind_err] at h
    · by_cases hm : jsonEqStr n sel
      · simp [findCoin, hd, hm, exceptBind_ok] at h
        subst h
        exact ⟨by rw [hd, jsonEqStr_true hm], pyGetItem_ok_truthy hd⟩
      · simp only [findCoin, hd, exceptBind_ok, hm, if_neg, Bool.false_eq_true,
          if_false] at h
        exact ih h

/-- A list that satisfies `coinsTableOk` builds the rankings table without
raising. -/
theorem makeTable_ok (cs : List Json) (h : coinsTableOk cs = true) :
    makeTable (Json.arr cs) = Except.ok () := by
  simp only [coinsTableOk, Bool.and_eq_true] at h
  have hobj : cs.all isObjJ = true := by
    rw [List.all_eq_true] at h ⊢
    intro c hc
    obtain ⟨n, hn⟩ := (exceptIsOk_iff _).mp ((List.all_eq_true.mp h.1) c hc)
    cases c <;> simp [pyGetItem] at hn <;> simp [isObjJ]
  simp [makeTable, hobj, h.2]

/-- The global branch issues no history request and renders no coin image:
its event list is free of `reqHistory` and `image`. -/
theorem renderGlobal_no_detail (coins : Json) (g : Option Response) :
    (∀ cid d, Event.reqHistory cid d ∉ (renderGlobal coins g).1) ∧
    (∀ j, Event.image j ∉ (renderGlobal coins g).1) := by
  refine ⟨fun cid d hmem => ?_, fun j hmem => ?_⟩
  all_goals
    simp only [renderGlobal, globalTail] at hmem
    repeat' split at hmem
  all_goals simp_all

/-- The detail branch never requests global stats. -/
theorem renderDetail_no_global (coin : Json) (d : Nat) (h : Option Response) :
    Event.reqGlobal ∉ (renderDetail coin d h).1 := by
  intro hmem
  simp only [renderDetail] at hmem
  repeat' split at hmem
  all_goals simp_all

/-- A render pass outside the global selection never requests global stats,
whatever the upstream responses. -/
theorem mainRun_no_global (env : Env) (hsel : env.selection ≠ "Global Overview") :
    Event.reqGlobal ∉ (mainRun env).1 := by
  intro hmem
  simp only [mainRun] at hmem
  repeat' split at hmem
  all_goals simp_all [renderDetail_no_global]

/-- A render pass with the global selection issues no history request and
renders no coin image, whatever the upstream responses. -/
theorem mainRun_global_no_detail (env : Env)
    (hsel : env.selection = "Global Overview") :
    (∀ cid d, Event.reqHistory cid d ∉ (mainRun env).1) ∧
    (∀ j, Event.image j ∉ (mainRun env).1) := by
  refine ⟨fun cid d hmem => ?_, fun j hmem => ?_⟩
  all_goals
    simp only [mainRun] at hmem
    repeat' split at hmem
  all_goals
    simp_all [(renderGlobal_no_detail _ _).1, (renderGlobal_no_detail _ _).2]

/-- A sentinel (empty) coin list makes `main` warn and halt. -/
theorem mainRun_empty (env : Env)
    (hm : get_coins_list env.markets = Json.arr []) :
    mainRun env =
      ([Event.reqMarkets, Event.warn "Could not load data. Please refresh later."],
        none) := by
  simp [mainRun, hm, pyLen]

/-- With a non-empty, name-carrying coin list and the global selection, the
pass is the markets request followed by the global branch. -/
theorem mainRun_global (env : Env) (cs : List Json)
    (hm : get_coins_list env.markets = Json.arr cs) (hne : cs ≠ [])
    (hn : namesOk cs = true) (hsel : env.selection = "Global Overview") :
    mainRun env =
      (Event.reqMarkets :: (renderGlobal (Json.arr cs) env.globalResp).1,
        (renderGlobal (Json.arr cs) env.globalResp).2) := by
  obtain ⟨ns, hns⟩ := buildNames_ok cs hn
  simp [mainRun, hm, pyLen, pyIterate, List.length_eq_zero, hne, hns, hsel]

/-- With a coin selection whose lookup hits, the pass is the markets request
followed by the detail branch on the found coin. -/
theorem mainRun_detail (env : Env) (cs : List Json) (coin : Json)
    (hm : get_coins_list env.markets = Json.arr cs) (hn : namesOk cs = true)
    (hsel : env.selection ≠ "Global Overview")
    (hf : findCoin env.selection cs = Except.ok (some coin)) :
    mainRun env =
      (Event.reqMarkets ::
          (renderDetail coin (daysOfOption env.daysOption) env.historyResp).1,
        (renderDetail coin (daysOfOption env.daysOption) env.historyResp).2) := by
  have hne : cs ≠ [] := by rintro rfl; simp [findCoin] at hf
  obtain ⟨ns, hns⟩ := buildNames_ok cs hn
  have htr := (findCoin_some_props hf).2
  simp [mainRun, hm, pyLen, pyIterate, List.length_eq_zero, hne, hns, hsel, hf, htr]

/-- With a coin selection whose lookup misses, the pass renders no detail
content at all: only the markets request happens, and nothing is raised. -/
theorem mainRun_nomatch (env : Env) (cs : List Json)
    (hm : get_coins_list env.markets = Json.arr cs) (hne : cs ≠ [])
    (hn : namesOk cs = true) (hsel : env.selection ≠ "Global Overview")
    (hf : findCoin env.selection cs = Except.ok none) :
    mainRun env = ([Event.reqMarkets], none) := by
  obtain ⟨ns, hns⟩ := buildNames_ok cs hn
  simp [mainRun, hm, pyLen, pyIterate, List.length_eq_zero, hne, hns, hsel, hf]

/-- A `symbolIsStr` hit pins the symbol to a string value. -/
theorem symbolIsStr_elim {c : Json} (h : symbolIsStr c = true) :
    ∃ s, pyGetItem c "symbol" = Except.ok (Json.str s) := by
  unfold symbolIsStr at h
  rcases hs : pyGetItem c "symbol" with e | v
  · rw [hs] at h; simp at h
  · rw [hs] at h
    cases v <;> simp_all

/-- Splitting `coinFieldsOk` into the seven field facts (the `name` fact
comes from the lookup hit separately). -/
theorem coinFieldsOk_elim {c : Json} (h : coinFieldsOk c = true) :
    ∃ sym img price change high cid,
      pyGetItem c "symbol" = Except.ok (Json.str sym) ∧
      pyGetItem c "image" = Except.ok img ∧
      pyGetItem c "current_price" = Except.ok price ∧
      pyGetItem c "price_change_percentage_24h" = Except.ok change ∧
      pyGetItem c "high_24h" = Except.ok high ∧
      pyGetItem c "id" = Except.ok cid := by
  simp only [coinFieldsOk, Bool.and_eq_true] at h
  obtain ⟨⟨⟨⟨⟨h1, h2⟩, h3⟩, h4⟩, h5⟩, h6⟩ := h
  obtain ⟨sym, hsym⟩ := symbolIsStr_elim h1
  obtain ⟨img, himg⟩ := (exceptIsOk_iff _).mp h2
  obtain ⟨price, hp⟩ := (exceptIsOk_iff _).mp h3
  obtain ⟨change, hc⟩ := (exceptIsOk_iff _).mp h4
  obtain ⟨high, hh⟩ := (exceptIsOk_iff _).mp h5
  obtain ⟨cid, hid⟩ := (exceptIsOk_iff _).mp h6
  exact ⟨sym, img, price, change, high, cid, hsym, himg, hp, hc, hh, hid⟩

/-- The detail branch up to and including its history request, when the
history fetch returns the failure sentinel (first component `None`): all
header events, the request, then the warning — and nothing raised. -/
theorem renderDetail_firstNone {coin nameJ img price change high cid : Json}
    {sym : String} (d : Nat) (hResp : Option Response)
    {pc pv : Option Series}
    (hn : pyGetItem coin "name" = Except.ok nameJ)
    (hs : pyGetItem coin "symbol" = Except.ok (Json.str sym))
    (himg : pyGetItem coin "image" = Except.ok img)
    (hp : pyGetItem coin "current_price" = Except.ok price)
    (hc : pyGetItem coin "price_change_percentage_24h" = Except.ok change)
    (hh24 : pyGetItem coin "high_24h" = Except.ok high)
    (hid : pyGetItem coin "id" = Except.ok cid)
    (hhist : get_coin_history hResp = (none, pc, pv)) :
    renderDetail coin d hResp =
      ([Event.title (pyStr nameJ ++ " (" ++ sym.toUpper ++ ")"), Event.image img,
        Event.metric "Current Price" ("€ " ++ pyStr price),
        Event.metric "24h Change" (pyStr change ++ " %"),
        Event.metric "24h High" ("€ " ++ pyStr high),
        Event.subheader ("History (" ++ toString d ++ " Days)"),
        Event.reqHistory cid d,
        Event.warn "Could not load chart data. API limit might be reached."], none) := by
  simp [renderDetail, hn, hs, himg, hp, hc, hh24, hid, hhist, pyUpper]

/-- The detail branch when the history fetch succeeds: all header events, the
request, then the three charts — and nothing raised. -/
theorem renderDetail_success {coin nameJ img price change high cid : Json}
    {sym : String} (d : Nat) (hResp : Option Response)
    {ps cps vs : Series}
    (hn : pyGetItem coin "name" = Except.ok nameJ)
    (hs : pyGetItem coin "symbol" = Except.ok (Json.str sym))
    (himg : pyGetItem coin "image" = Except.ok img)
    (hp : pyGetItem coin "current_price" = Except.ok price)
    (hc : pyGetItem coin "price_change_percentage_24h" = Except.ok change)
    (hh24 : pyGetItem coin "high_24h" = Except.ok high)
    (hid : pyGetItem coin "id" = Except.ok cid)
    (hhist : get_coin_history hResp = (some ps, some cps, some vs)) :
    renderDetail coin d hResp =
      ([Event.title (pyStr nameJ ++ " (" ++ sym.toUpper ++ ")"), Event.image img,
        Event.metric "Current Price" ("€ " ++ pyStr price),
        Event.metric "24h Change" (pyStr change ++ " %"),
        Event.metric "24h High" ("€ " ++ pyStr high),
        Event.subheader ("History (" ++ toString d ++ " Days)"),
        Event.reqHistory cid d, Event.lineChart ps, Event.barChart vs,
        Event.areaChart cps], none) := by
  simp [renderDetail, hn, hs, himg, hp, hc, hh24, hid, hhist, pyUpper]

/-- Whatever the history response, the detail branch on a fully populated
coin issues the history request for that coin's id and window. -/
theorem renderDetail_req_mem {coin nameJ img price change high cid : Json}
    {sym : String} (d : Nat) (hResp : Option Response)
    (hn : pyGetItem coin "name" = Except.ok nameJ)
    (hs : pyGetItem coin "symbol" = Except.ok (Json.str sym))
    (himg : pyGetItem coin "image" = Except.ok img)
    (hp : pyGetItem coin "current_price" = Except.ok price)
    (hc : pyGetItem coin "price_change_percentage_24h" = Except.ok change)
    (hh24 : pyGetItem coin "high_24h" = Except.ok high)
    (hid : pyGetItem coin "id" = Except.ok cid) :
    Event.reqHistory cid d ∈ (renderDetail coin d hResp).1 := by
  rcases hhist : get_coin_history hResp with ⟨_ | ps, pc, pv⟩
  · rw [renderDetail_firstNone d hResp hn hs himg hp hc hh24 hid hhist]
    simp
  · rcases pc with _ | cps <;> rcases pv with _ | vs <;>
      simp [renderDetail, hn, hs, himg, hp, hc, hh24, hid, hhist, pyUpper]

/-! ## Claim C2: sentinel handling in `main` -/

/-- C2 counterexample: a truthy global-stats object lacking the
`total_market_cap` key is not a sentinel, and `main` raises a `KeyError` on
it instead of substituting a notice. -/
theorem main_raises_on_malformed_global :
    (mainRun c2Env).2 = some PyErr.keyError := rfl

/-- C2 as amended: `main` checks only for the empty/null/`None` sentinels —
an empty coin list yields the "could not load data" warning and a halt, a
null global-stats result omits the metrics while the table still renders, and
a sentinel history result yields the "chart data unavailable" warning instead
of charts, in each case without raising; malformed non-sentinel bodies are
not guarded (see the counterexample). -/
theorem main_sentinel_handling :
    (∀ env : Env, get_coins_list env.markets = Json.arr [] →
        mainRun env =
          ([Event.reqMarkets, Event.warn "Could not load data. Please refresh later."],
            none)) ∧
    (∀ (env : Env) (cs : List Json), env.selection = "Global Overview" →
        get_coins_list env.markets = Json.arr cs → cs ≠ [] →
        coinsTableOk cs = true → get_global_data env.globalResp = none →
        mainRun env =
          ([Event.reqMarkets, Event.title "Global Crypto Market", Event.reqGlobal,
            Event.subheader "Top 100 Rankings", Event.table], none)) ∧
    (∀ (env : Env) (cs : List Json) (coin : Json),
        env.selection ≠ "Global Overview" →
        get_coins_list env.markets = Json.arr cs → namesOk cs = true →
        findCoin env.selection cs = Except.ok (some coin) →
        coinFieldsOk coin = true →
        get_coin_history env.historyResp = (none, none, none) →
        (mainRun env).2 = none ∧
          Event.warn "Could not load chart data. API limit might be reached." ∈
            (mainRun env).1 ∧
          ∀ s, Event.lineChart s ∉ (mainRun env).1) := by
  refine ⟨?_, ?_, ?_⟩
  · exact fun env hm => mainRun_empty env hm
  · intro env cs hsel hm hne htab hg
    have hmt := makeTable_ok cs htab
    simp only [coinsTableOk, Bool.and_eq_true] at htab
    rw [mainRun_global env cs hm hne htab.1 hsel]
    simp [renderGlobal, hg, globalTail, hmt]
  · intro env cs coin hsel hm hn hf hco hhist
    obtain ⟨sym, img, price, change, high, cid, hsym, himg, hp, hc, hh24, hid⟩ :=
      coinFieldsOk_elim hco
    have hname := (findCoin_some_props hf).1
    rw [mainRun_detail env cs coin hm hn hsel hf,
      renderDetail_firstNone (daysOfOption env.daysOption) env.historyResp
        hname hsym himg hp hc hh24 hid hhist]
    refine ⟨rfl, by simp, ?_⟩
    intro s
    simp

/-- Witness for the amended C2: the three sentinel paths at concrete inputs —
markets transport failure, global-stats transport failure, history transport
failure. -/
theorem main_sentinel_handling_witness :
    mainRun emptyMarketsEnv =
      ([Event.reqMarkets, Event.warn "Could not load data. Please refresh later."],
        none) ∧
    mainRun globalDownEnv =
      ([Event.reqMarkets, Event.title "Global Crypto Market", Event.reqGlobal,
        Event.subheader "Top 100 Rankings", Event.table], none) ∧
    ((mainRun historyDownEnv).2 = none ∧
      Event.warn "Could not load chart data. API limit might be reached." ∈
        (mainRun historyDownEnv).1 ∧
      ∀ s, Event.lineChart s ∉ (mainRun historyDownEnv).1) := by
  refine ⟨?_, ?_, ?_⟩
  · exact main_sentinel_handling.1 emptyMarketsEnv rfl
  · exact main_sentinel_handling.2.1 globalDownEnv [bitcoinCoin] rfl rfl
      (by simp) rfl rfl
  · exact main_sentinel_handling.2.2 historyDownEnv [bitcoinCoin] bitcoinCoin
      (by decide) rfl rfl rfl rfl rfl

/-! ## Claim C7: detail passes and their requests -/

/-- C7: a render pass with a coin selection never invokes the global-stats
fetch; and when the selected coin is found (with its fields present) under
the "30 Days" label, the pass requests history for exactly that coin's id and
30 days, and renders the price, volume and market-cap series when the history
fetch succeeds. -/
theorem main_detail_requests :
    (∀ env : Env, env.selection ≠ "Global Overview" →
        Event.reqGlobal ∉ (mainRun env).1) ∧
    (∀ (env : Env) (cs : List Json) (coin cid : Json),
        env.selection ≠ "Global Overview" →
        get_coins_list env.markets = Json.arr cs → namesOk cs = true →
        findCoin env.selection cs = Except.ok (some coin) →
        coinFieldsOk coin = true → pyGetItem coin "id" = Except.ok cid →
        env.daysOption = "30 Days" →
        Event.reqHistory cid 30 ∈ (mainRun env).1 ∧
          ∀ ps cps vs,
            get_coin_history env.historyResp = (some ps, some cps, some vs) →
            Event.lineChart ps ∈ (mainRun env).1 ∧
              Event.barChart vs ∈ (mainRun env).1 ∧
              Event.areaChart cps ∈ (mainRun env).1) := by
  constructor
  · exact mainRun_no_global
  · intro env cs coin cid hsel hm hn hf hco hid30 hdf
    obtain ⟨sym, img, price, change, high, cid2, hsym, himg, hp, hc, hh24, hid2⟩ :=
      coinFieldsOk_elim hco
    have hcid : cid2 = cid := by rw [hid2] at hid30; injection hid30
    subst hcid
    have hname := (findCoin_some_props hf).1
    have hd30 : daysOfOption env.daysOption = 30 := by rw [hdf]; rfl
    rw [mainRun_detail env cs coin hm hn hsel hf, hd30]
    constructor
    · simp [renderDetail_req_mem 30 env.historyResp hname hsym himg hp hc hh24 hid2]
    · intro ps cps vs hhist
      rw [renderDetail_success 30 env.historyResp hname hsym himg hp hc hh24 hid2 hhist]
      refine ⟨by simp, by simp, by simp⟩

/-- Witness for C7: the Bitcoin detail pass over 30 days with a healthy
history response issues the right request and renders the three series; and a
concrete non-global pass issues no global-stats request. -/
theorem main_detail_requests_witness :
    Event.reqGlobal ∉ (mainRun detail30Env).1 ∧
    Event.reqHistory (Json.str "bitcoin") 30 ∈ (mainRun detail30Env).1 ∧
    Event.lineChart [(1000, Json.num 100), (2000, Json.num 110)] ∈ (mainRun detail30Env).1 ∧
    Event.barChart [(1000, Json.num 70), (2000, Json.num 80)] ∈ (mainRun detail30Env).1 ∧
    Event.areaChart [(1000, Json.num 5000), (2000, Json.num 5500)] ∈ (mainRun detail30Env).1 := by
  have h2 := main_detail_requests.2 detail30Env [bitcoinCoin] bitcoinCoin
    (Json.str "bitcoin") (by decide) rfl rfl rfl rfl rfl rfl
  have h3 := h2.2 [(1000, Json.num 100), (2000, Json.num 110)]
    [(1000, Json.num 5000), (2000, Json.num 5500)]
    [(1000, Json.num 70), (2000, Json.num 80)] rfl
  exact ⟨main_detail_requests.1 detail30Env (by decide), h2.1, h3.1, h3.2.1, h3.2.2⟩

/-! ## Claim C9: the global-overview sentinel shadows same-named coins -/

/-- C9: whenever the selection equals "Global Overview" — even if the fetched
list contains a coin literally named "Global Overview" — the pass takes the
global branch: no history request is ever issued and no coin image is ever
rendered, so the detail view for such a coin is unreachable. -/
theorem global_overview_shadows (env : Env)
    (h : env.selection = "Global Overview") :
    (∀ cid d, Event.reqHistory cid d ∉ (mainRun env).1) ∧
    (∀ j, Event.image j ∉ (mainRun env).1) :=
  mainRun_global_no_detail env h

/-- Witness for C9 at a list that contains a coin named "Global Overview":
selecting that entry yields no history request and no coin image. -/
theorem global_overview_shadows_witness :
    Event.reqHistory (Json.str "global-overview-coin") 7 ∉ (mainRun goShadowEnv).1 ∧
    Event.image (Json.str "https://img.example/gov.png") ∉ (mainRun goShadowEnv).1 :=
  ⟨(global_overview_shadows goShadowEnv rfl).1 (Json.str "global-overview-coin") 7,
   (global_overview_shadows goShadowEnv rfl).2 (Json.str "https://img.example/gov.png")⟩

/-! ## Claim C10: first-match lookup by exact name -/

/-- C10: coin lookup in the detail view is a first-match linear scan by exact
name (`List.find?` of the exact-name predicate, hence the first occurrence in
fetched order when several coins share the selected name); and when no coin
matches, the pass renders no detail content at all. -/
theorem find_first_match_and_nomatch :
    (∀ (sel : String) (cs : List Json), namesOk cs = true →
        findCoin sel cs = Except.ok (cs.find? (nameMatches sel))) ∧
    (∀ (env : Env) (cs : List Json), env.selection ≠ "Global Overview" →
        get_coins_list env.markets = Json.arr cs → cs ≠ [] →
        namesOk cs = true → findCoin env.selection cs = Except.ok none →
        mainRun env = ([Event.reqMarkets], none)) :=
  ⟨findCoin_first_match,
   fun env cs hsel hm hne hn hf => mainRun_nomatch env cs hm hne hn hsel hf⟩

/-- Witness for C10: with two coins named "Bitcoin" the first one in fetched
order is found; and with a selection matching nothing, the pass is just the
markets request with nothing rendered. -/
theorem find_first_match_and_nomatch_witness :
    findCoin "Bitcoin" [bitcoinCoin, bitcoinDup] = Except.ok (some bitcoinCoin) ∧
    mainRun noMatchEnv = ([Event.reqMarkets], none) := by
  constructor
  · rw [find_first_match_and_nomatch.1 "Bitcoin" [bitcoinCoin, bitcoinDup] rfl]
    rfl
  · exact find_first_match_and_nomatch.2 noMatchEnv [bitcoinCoin] (by decide)
      rfl (by simp) rfl rfl

end CryptoDash
